import Mathlib

/-!
Verification of the solar-panel image-flattening tool (`vision_201819`).

The development shallowly embeds the three Python source files:

* `src/task1/common/gui.py` — the `Viewer` file scroller (`ViewerState`,
  `Viewer.next_frame`).
* `src/task2/flattening_module/imageflattener.py` — the `ImageFlattener`
  annotation/flatten/save state machine (`FState` and its events) and the
  `_parse_input` JSON validator (`parseInput`).
* The perspective warp `nPTransform.four_points_correct_aspect` and the
  `ImageProcessor` base class are not part of the given sources; where a claim
  needs them they are modelled from the specification and marked
  `Modelled from the spec:` in their doc comments.

Machine pixels and coordinates are modelled as rationals; Python `dict`s as
insertion-ordered association lists with an upsert operation.
-/

namespace Vision

/- The Batteries rational-arithmetic primitives are marked irreducible, which
blocks `decide`-style evaluation of the concrete witness states below; they
are perfectly computable, so re-allow unfolding them locally. -/
attribute [local semireducible] Rat.add Rat.mul Rat.inv Rat.sub

/-! ## Task 1: the `Viewer` file scroller (`src/task1/common/gui.py`) -/

/-- State of the `Viewer` widget: the (non-empty in practice) file list and the
current index.  The image label, search box and Tk plumbing are display-only
and are not part of the state. -/
structure ViewerState where
  files : List String
  index : Nat
deriving DecidableEq, Repr

/-- `Viewer.next_frame(new_index)`: `self.index = new_index % len(self.files)`.
Python `%` with a positive modulus agrees with `Int.emod` (both yield a result
in `[0, len)`), so the embedding uses Lean's `%` on `Int`. -/
def next_frame (st : ViewerState) (new_index : Int) : ViewerState :=
  { st with index := (new_index % (st.files.length : Int)).toNat }

/-- The "next" button: `self.next_frame(self.index + 1)`. -/
def nextButton (st : ViewerState) : ViewerState :=
  next_frame st ((st.index : Int) + 1)

/-- The "back" button: `self.next_frame(self.index - 1)`. -/
def backButton (st : ViewerState) : ViewerState :=
  next_frame st ((st.index : Int) - 1)

/-! ## Task 2: input parsing (`_parse_input` in `imageflattener.py`) -/

/-- A decoded JSON value, as handed to `_parse_input` by `json.load`. -/
inductive Json where
  | null : Json
  | bool : Bool → Json
  | int : Int → Json
  | num : ℚ → Json
  | str : String → Json
  | arr : List Json → Json
  | obj : List (String × Json) → Json

/-- A Python value usable as a `dict` key (hashable).  `list`/`dict` values
raise `TypeError` when used as keys. -/
inductive JKey where
  | null : JKey
  | bool : Bool → JKey
  | int : Int → JKey
  | num : ℚ → JKey
  | str : String → JKey
deriving DecidableEq, Repr

/-- The exceptions `_parse_input` can raise: its own `JsonFormatError`, an
`IndexError` from subscripting an empty point list, and a `TypeError` from
using an unhashable value as a `dict` key. -/
inductive PyErr where
  | jsonFormatError : String → PyErr
  | indexError : PyErr
  | typeError : PyErr
deriving DecidableEq, Repr

/-- `isinstance(x, int)` — true also for `bool`, which is a subclass of `int`
in Python. -/
def pyIsInt : Json → Bool
  | .int _ => true
  | .bool _ => true
  | _ => false

/-- One Python `dict` upsert `d[k] = v`: replaces the value at an existing key
in place, otherwise appends (insertion order preserved). -/
def dictInsert {κ α : Type} [DecidableEq κ] : List (κ × α) → κ → α → List (κ × α)
  | [], k, x => [(k, x)]
  | (k', x') :: rest, k, x =>
      if k' = k then (k', x) :: rest else (k', x') :: dictInsert rest k x

/-- Whether a key is present in an association list. -/
def hasKey {κ α : Type} [DecidableEq κ] (m : List (κ × α)) (k : κ) : Bool :=
  m.any (fun kv => kv.1 = k)

/-- The condition `isinstance(point, list) and len(images_input[key]) == 2 and
isinstance(point[0], int) and isinstance(point[1], int)` from `_parse_input`,
evaluated left to right with Python short-circuiting; `point[0]` / `point[1]`
on a too-short list raises `IndexError`.  Note the source tests the length of
the OUTER value list, not of `point` itself. -/
def checkPoint (outer : List Json) (pt : Json) : Except PyErr Bool :=
  match pt with
  | .arr ps =>
      if outer.length = 2 then
        match ps with
        | [] => .error .indexError
        | [a] => if pyIsInt a then .error .indexError else .ok false
        | a :: b :: _ => .ok (pyIsInt a && pyIsInt b)
      else .ok false
  | _ => .ok false

/-- The inner `for point in images_input[key]` loop of `_parse_input`: each
valid point re-assigns `panels_in[key] = tuple(images_input[key])`; any
invalid point raises `JsonFormatError`. -/
def processPoints (k : JKey) (outer : List Json) :
    List Json → List (JKey × List Json) → Except PyErr (List (JKey × List Json))
  | [], acc => .ok acc
  | p :: rest, acc =>
      match checkPoint outer p with
      | .error e => .error e
      | .ok true => processPoints k outer rest (dictInsert acc k outer)
      | .ok false =>
          .error (.jsonFormatError ("lists should contain lists of ints of len 2"))

/-- The `for key in images_input` loop of the `dict` branch of `_parse_input`. -/
def parseObjEntries :
    List (String × Json) → List (JKey × List Json) → Except PyErr (List (JKey × List Json))
  | [], acc => .ok acc
  | (k, v) :: rest, acc =>
      match v with
      | .arr pts =>
          match processPoints (.str k) pts pts (dictInsert acc (.str k) []) with
          | .error e => .error e
          | .ok acc' => parseObjEntries rest acc'
      | _ => .error (.jsonFormatError ("Json values should be lists"))

/-- The `for key in images_input` loop of the `list` branch: every element
becomes a key with an empty point list (`TypeError` if unhashable). -/
def parseListItems :
    List Json → List (JKey × List Json) → Except PyErr (List (JKey × List Json))
  | [], acc => .ok acc
  | it :: rest, acc =>
      match it with
      | .null => parseListItems rest (dictInsert acc .null [])
      | .bool b => parseListItems rest (dictInsert acc (.bool b) [])
      | .int n => parseListItems rest (dictInsert acc (.int n) [])
      | .num q => parseListItems rest (dictInsert acc (.num q) [])
      | .str s => parseListItems rest (dictInsert acc (.str s) [])
      | .arr _ => .error .typeError
      | .obj _ => .error .typeError

/-- `_parse_input(images_input)` from `imageflattener.py`.  The
`JsonFormatError` message strings follow the source (the first one in the
source additionally embeds the whitespace of a backslash line continuation,
which is elided here). -/
def parseInput (j : Json) : Except PyErr (List (JKey × List Json)) :=
  match j with
  | .obj kvs => parseObjEntries kvs []
  | .arr items => parseListItems items []
  | _ => .error (.jsonFormatError ("Json should be formatted like a list or dict"))

/-! ## Python `float()` on strings

The dimension popup parses its two text entries with `float(...)`, catching
`ValueError`.  `pyFloat` models CPython's `float` on finite decimal literals:
optional surrounding spaces, an optional sign, a decimal mantissa with an
optional fractional part, and an optional exponent.  The `inf`/`nan` spellings
and digit-group underscores accepted by CPython are not modelled (they map to
`none` here); no claim exercises them. -/

/-- Numeric value of a digit string, most significant first. -/
def digitsVal (cs : List Char) : Nat :=
  cs.foldl (fun a c => 10 * a + (c.toNat - 48)) 0

/-- The optional exponent suffix `e…`/`E…`; `some e` when the (possibly empty)
suffix is well-formed and completely consumed. -/
def parseExp (l : List Char) : Option Int :=
  match l with
  | [] => some 0
  | 'e' :: r | 'E' :: r =>
      let (esgn, r1) :=
        match r with
        | '-' :: r2 => ((-1 : Int), r2)
        | '+' :: r2 => ((1 : Int), r2)
        | _ => ((1 : Int), r)
      let ed := r1.takeWhile Char.isDigit
      let r2 := r1.dropWhile Char.isDigit
      if ed.isEmpty || !r2.isEmpty then none else some (esgn * (digitsVal ed : Int))
  | _ => none

/-- Model of Python `float(s)` for finite decimal literals, as an exact
rational (`none` models `ValueError`). -/
def pyFloat (s : String) : Option ℚ :=
  let cs := s.toList
  let cs := ((cs.dropWhile (· = ' ')).reverse.dropWhile (· = ' ')).reverse
  let (sgn, cs1) :=
    match cs with
    | '-' :: rest => ((-1 : ℚ), rest)
    | '+' :: rest => ((1 : ℚ), rest)
    | _ => ((1 : ℚ), cs)
  let intDigits := cs1.takeWhile Char.isDigit
  let cs2 := cs1.dropWhile Char.isDigit
  let (fracDigits, cs3) :=
    match cs2 with
    | '.' :: rest => (rest.takeWhile Char.isDigit, rest.dropWhile Char.isDigit)
    | _ => ([], cs2)
  if intDigits.isEmpty && fracDigits.isEmpty then none
  else
    match parseExp cs3 with
    | none => none
    | some e =>
        let mant : ℚ :=
          (digitsVal intDigits : ℚ) + (digitsVal fracDigits : ℚ) / (10 ^ fracDigits.length : ℚ)
        some (sgn * mant * (10 : ℚ) ^ e)

/-! ## The perspective warp `nPTransform.four_points_correct_aspect`

`nPTransform` is imported by `imageflattener.py` but is not among the given
sources, so it is modelled from the specification (§4.1). -/

/-- Round-to-nearest (half away from zero upward), written with `Rat.floor`
so that it evaluates by kernel reduction; `qround_eq_round` identifies it
with Mathlib's `round`. -/
def qround (q : ℚ) : ℤ := Rat.floor (q + 1 / 2)

/-- `qround` agrees with Mathlib's `round`. -/
theorem qround_eq_round (q : ℚ) : qround q = round q := by
  rw [round_eq]
  exact (Rat.floor_def' _).trans Rat.floor_def.symm

/-- A raster image: width, height, and a row-major grid of scalar pixel
values (a single channel stands in for RGB). -/
structure Img where
  width : Nat
  height : Nat
  pix : List (List ℚ)
deriving DecidableEq, Repr

/-- Nearest-neighbour fetch of source coordinates `(x, y)`, with black (`0`)
fill for out-of-bounds coordinates, per the spec's resampling contract. -/
def srcSample (img : Img) (x y : ℚ) : ℚ :=
  let sx := qround x
  let sy := qround y
  if 0 ≤ sx ∧ sx < (img.width : Int) ∧ 0 ≤ sy ∧ sy < (img.height : Int) then
    (img.pix.getD sy.toNat []).getD sx.toNat 0
  else 0

/-- Modelled from the spec: `nPTransform.four_points_correct_aspect(img, rect,
short, long)` (the module is not among the given sources).  Per §4.1 it
signals `InvalidDimensionsError` when either target side is ≤ 0; otherwise it
builds the destination rectangle of exactly `round(short) × round(long)`
pixels, solves the projective map taking the destination rectangle's corners
(in order) to the four source points, and resamples by inverse mapping with
out-of-bounds black fill.  The unit-square-to-quadrilateral coefficients are
obtained from the standard two-unknown linear system; a singular system is
the non-invertible / degenerate-geometry case (`DegenerateGeometryError`).
`none` models either raised error. -/
def four_points_correct_aspect (img : Img) (p0 p1 p2 p3 : ℚ × ℚ) (short long : ℚ) :
    Option Img :=
  if short ≤ 0 ∨ long ≤ 0 then none
  else
  let W : Int := qround short
  let H : Int := qround long
  let sx := p0.1 - p1.1 + p2.1 - p3.1
  let sy := p0.2 - p1.2 + p2.2 - p3.2
  let dx1 := p1.1 - p2.1
  let dy1 := p1.2 - p2.2
  let dx2 := p3.1 - p2.1
  let dy2 := p3.2 - p2.2
  let den := dx1 * dy2 - dx2 * dy1
  if den = 0 then none
  else
    let g := (sx * dy2 - dx2 * sy) / den
    let h := (dx1 * sy - sx * dy1) / den
    let a := p1.1 - p0.1 + g * p1.1
    let b := p3.1 - p0.1 + h * p3.1
    let c := p0.1
    let d := p1.2 - p0.2 + g * p1.2
    let e := p3.2 - p0.2 + h * p3.2
    let f := p0.2
    some { width := W.toNat, height := H.toNat,
           pix := (List.range H.toNat).map fun y =>
                  (List.range W.toNat).map fun x =>
                    let u := (x : ℚ) / (W : ℚ)
                    let v := (y : ℚ) / (H : ℚ)
                    let wd := g * u + h * v + 1
                    srcSample img ((a * u + b * v + c) / wd) ((d * u + e * v + f) / wd) }

/-! ## The `ImageFlattener` annotation state machine

Embedding of the `ImageFlattener` instance state and of the event handlers in
`imageflattener.py`.  Tk widget plumbing (dots, canvas, toolbar) is
display-only and not part of the state; the coordinate map `win_to_canvas` is
abstracted by taking the click point already in canvas coordinates.  The
`ImageProcessor` base class is not among the given sources; the parts of it
the handlers call (`reload`'s restore of the original raster,
`save_img_to_folder_with_extra`, `load_next_img_or_end`) are modelled from the
specification and say so in their doc comments. -/

/-- The mutable state of one `ImageFlattener` run.

* `dim`, `saved`, `clicks`, `imgFlattened`, `numSaved` are the private
  attributes of `ImageFlattener` (the save manifest `__saved` is an
  insertion-ordered dict from output path to the dims used, which the source
  stores verbatim from `self.dim`, hence `Option`-valued).
* `cvImg` / `origImg` are the working raster and the pristine raster of the
  current source image (held by the `ImageProcessor` base).
* `saveTo`, `currStem`, `currExt` identify the output folder and the current
  source file's stem and extension; `rest` holds the not-yet-visited source
  images as (stem, extension, raster); `ended` is the terminal state reached
  when the list is exhausted. -/
structure FState where
  dim : Option (ℚ × ℚ)
  saved : List (String × Option (ℚ × ℚ))
  clicks : List (ℚ × ℚ)
  imgFlattened : Bool
  numSaved : Nat
  cvImg : Img
  origImg : Img
  saveTo : String
  currStem : String
  currExt : String
  rest : List (String × String × Img)
  ended : Bool
deriving DecidableEq, Repr

/-- Modelled from the spec: `ImageProcessor.save_img_to_folder_with_extra`
(base class not among the given sources).  Per §6 the output naming convention
is `<original-stem><extra><ext>` inside the output directory. -/
def mkSavePath (st : FState) (extra : String) : String :=
  st.saveTo ++ ("/") ++ st.currStem ++ extra ++ st.currExt

/-- `ImageFlattener.reload`: calls `ImageProcessor.reload` (modelled from the
spec: restores the original `SourceImage` as the working raster), then clears
`_img_flattened` and `__clicks`.  `_make_panel_dots` is display-only. -/
def reload (st : FState) : FState :=
  { st with cvImg := st.origImg, imgFlattened := false, clicks := [] }

/-- Modelled from the spec: `ImageProcessor.load_next_img_or_end` (base class
not among the given sources).  Advances to the next source path, loading its
raster and re-rendering it afresh (per §3 the `CornerSet` is reset on every
next-file), or enters the terminal `Done` state when the list is exhausted. -/
def loadNextImgOrEnd (st : FState) : FState :=
  match st.rest with
  | [] => { st with ended := true }
  | (stem, ext, img) :: rest =>
      reload { st with currStem := stem, currExt := ext, origImg := img, rest := rest }

/-- `ImageFlattener.left_mouse_down`: ignored once `_img_flattened` is set;
otherwise appends the canvas point to `__clicks` and, once there are ≥ 4
clicks, sets `_img_flattened` and synchronously opens the dimension popup
(the returned `Bool` reports that the popup side effect fired). -/
def left_mouse_down (st : FState) (p : ℚ × ℚ) : FState × Bool :=
  if st.imgFlattened then (st, false)
  else
    let st1 := { st with clicks := st.clicks ++ [p] }
    if 4 ≤ st1.clicks.length then ({ st1 with imgFlattened := true }, true)
    else (st1, false)

/-- A sequence of canvas clicks, dropping the popup-fired flags. -/
def clickSeq (st : FState) (ps : List (ℚ × ℚ)) : FState :=
  ps.foldl (fun s p => (left_mouse_down s p).1) st

/-- `ImageFlattener._flatten_img`: asserts 4 clicks, warps the working raster
with `four_points_correct_aspect(img, clicks, dim[0], dim[1])` and clears the
clicks.  `none` covers the exceptional exits: the `assert` failure on
`len(clicks) != 4`, the `TypeError` of `self.dim[0]` when no dimensions were
ever stored, and the errors raised inside the warp (degenerate geometry, or
non-positive target dimensions). -/
def flatten_img (st : FState) : Option FState :=
  match st.clicks, st.dim with
  | [p0, p1, p2, p3], some d =>
      match four_points_correct_aspect st.cvImg p0 p1 p2 p3 d.1 d.2 with
      | some flat => some { st with cvImg := flat, clicks := [] }
      | none => none
  | _, _ => none

/-- `ImageFlattener.save`: only acts when `_img_flattened` is set — it writes
the working raster to `<stem>_flat<ext>` for the first save of the source
image and `<stem>_flat_<n><ext>` thereafter, records the path in the
`__saved` manifest with the current `dim`, increments `__num_saved`, and
implicitly reloads.  The second component reports the path written (`none`
means no file was written). -/
def save (st : FState) : FState × Option String :=
  if st.imgFlattened then
    let extra := if 0 < st.numSaved then ("_flat_") ++ Nat.repr st.numSaved else ("_flat")
    let path := mkSavePath st extra
    let st1 := { st with saved := dictInsert st.saved path st.dim, numSaved := st.numSaved + 1 }
    (reload st1, some path)
  else (st, none)

/-- `ImageFlattener.next_file`: clears `_img_flattened`, resets the per-image
save counter and advances to the next image. -/
def next_file (st : FState) : FState :=
  loadNextImgOrEnd { st with imgFlattened := false, numSaved := 0 }

/-- Outcome of the popup's `done` callback: `retry` — a text entry failed to
parse, the handler returned early and the popup stays open; `ok` — dimensions
stored, popup destroyed, image flattened; `geomFail` — dimensions stored and
popup destroyed but the flatten step raised (degenerate geometry, non-positive
target dimensions, or a broken precondition), the exception propagating out of
the callback uncaught and leaving the rest of the state as it was. -/
inductive DoneResult where
  | retry : FState → DoneResult
  | ok : FState → DoneResult
  | geomFail : FState → DoneResult
deriving DecidableEq, Repr

/-- The session state carried by a `DoneResult`. -/
def DoneResult.state : DoneResult → FState
  | .retry st => st
  | .ok st => st
  | .geomFail st => st

/-- Whether the `done` callback ran to completion. -/
def DoneResult.isOk : DoneResult → Bool
  | .ok _ => true
  | _ => false

/-- The `done` callback of `_request_dims`: parses the short then the long
entry with `float`, returning early (popup open, state untouched) on
`ValueError`; on success stores `__dim = (short, long)` — with no positivity
or ordering validation — destroys the popup and flattens. -/
def doneHandler (st : FState) (shortStr longStr : String) : DoneResult :=
  match pyFloat shortStr with
  | none => .retry st
  | some s =>
      match pyFloat longStr with
      | none => .retry st
      | some l =>
          let st1 := { st with dim := some (s, l) }
          match flatten_img st1 with
          | some st2 => .ok st2
          | none => .geomFail st1

/-- Outcome of the "Use Last" path of `_request_dims`: `unavailable` — the
button is only created when `self.dim is not None`, so with no prior
dimensions the operation cannot be invoked at all; `flattened` — popup
destroyed and the image flattened with the stored dimensions; `crashed` — the
flatten step raised after the popup was destroyed. -/
inductive SkipResult where
  | unavailable : SkipResult
  | flattened : FState → SkipResult
  | crashed : FState → SkipResult
deriving DecidableEq, Repr

/-- The `skip` callback of `_request_dims` ("Use Last"), together with the
guard `if self.dim is not None` under which its button exists: destroys the
popup and flattens with the already-stored dimensions. -/
def skipHandler (st : FState) : SkipResult :=
  match st.dim with
  | none => .unavailable
  | some _ =>
      match flatten_img st with
      | some st' => .flattened st'
      | none => .crashed st

/-- A pristine single-image session state, as configured by `__init__` (all
counters zero, no dimensions, empty manifest, no clicks) right after the
startup `reload`: a 2×2 source raster for file `a.jpg`, saving into `out`. -/
def freshState : FState :=
  { dim := none
    saved := []
    clicks := []
    imgFlattened := false
    numSaved := 0
    cvImg := { width := 2, height := 2, pix := [[1, 2], [3, 4]] }
    origImg := { width := 2, height := 2, pix := [[1, 2], [3, 4]] }
    saveTo := "out"
    currStem := "a"
    currExt := ".jpg"
    rest := []
    ended := false }

/-! ## Shared lemmas -/

/-- Once `_img_flattened` is set, a click is ignored entirely. -/
theorem left_mouse_down_flattened (st : FState) (p : ℚ × ℚ)
    (h : st.imgFlattened = true) : left_mouse_down st p = (st, false) := by
  simp [left_mouse_down, h]

/-- Once `_img_flattened` is set, any sequence of clicks is ignored. -/
theorem clickSeq_flattened (ps : List (ℚ × ℚ)) (st : FState)
    (h : st.imgFlattened = true) : clickSeq st ps = st := by
  induction ps generalizing st with
  | nil => rfl
  | cons p ps ih =>
      show clickSeq (left_mouse_down st p).1 ps = st
      rw [left_mouse_down_flattened st p h]
      exact ih st h

/-- The click-count invariant: a state whose click list is short enough (and
strictly shorter than 4 while still collecting) keeps its click list at no
more than 4 entries under any further clicks. -/
theorem clickSeq_clicks_le_four (ps : List (ℚ × ℚ)) (st : FState)
    (h3 : st.imgFlattened = false → st.clicks.length ≤ 3)
    (h4 : st.clicks.length ≤ 4) :
    (clickSeq st ps).clicks.length ≤ 4 := by
  induction ps generalizing st with
  | nil => exact h4
  | cons p ps ih =>
      show (clickSeq (left_mouse_down st p).1 ps).clicks.length ≤ 4
      by_cases hf : st.imgFlattened = true
      · rw [left_mouse_down_flattened st p hf]
        exact ih st h3 h4
      · have hf' : st.imgFlattened = false := by
          cases hb : st.imgFlattened
          · rfl
          · exact absurd hb hf
        have hlen := h3 hf'
        unfold left_mouse_down
        rw [hf']
        simp only [Bool.false_eq_true, if_false]
        by_cases h4le : 4 ≤ st.clicks.length + 1
        · simp only [List.length_append, List.length_cons, List.length_nil, h4le, if_true]
          apply ih
          · intro hcontra
            simp at hcontra
          · simp
            omega
        · simp only [List.length_append, List.length_cons, List.length_nil, h4le, if_false]
          apply ih
          · intro _
            simp
            omega
          · simp
            omega

/-- Upserting a fresh key into a Python dict appends the pair. -/
theorem dictInsert_fresh {κ α : Type} [DecidableEq κ] (m : List (κ × α)) (k : κ) (x : α)
    (h : hasKey m k = false) : dictInsert m k x = m ++ [(k, x)] := by
  induction m with
  | nil => rfl
  | cons kv rest ih =>
      obtain ⟨k', x'⟩ := kv
      simp only [hasKey, List.any_cons, Bool.or_eq_false_iff, decide_eq_false_iff_not] at h
      simp only [dictInsert, if_neg h.1]
      rw [ih]
      · rfl
      · simp only [hasKey]
        exact h.2

/-- Key membership distributes over a one-pair append. -/
theorem hasKey_append_single {κ α : Type} [DecidableEq κ]
    (m : List (κ × α)) (k k' : κ) (x : α) :
    hasKey (m ++ [(k', x)]) k = (hasKey m k || decide (k' = k)) := by
  simp [hasKey]

/-- On success, the popup's `done` callback stores exactly the parsed pair,
destroys the popup, and replaces the working raster with the warp of the
current raster at the four recorded clicks and the freshly stored dims. -/
theorem doneHandler_ok (st : FState) (ss ls : String) (s l : ℚ)
    (q0 q1 q2 q3 : ℚ × ℚ) (flat : Img)
    (hs : pyFloat ss = some s) (hl : pyFloat ls = some l)
    (hc : st.clicks = [q0, q1, q2, q3])
    (hw : four_points_correct_aspect st.cvImg q0 q1 q2 q3 s l = some flat) :
    doneHandler st ss ls = .ok { st with dim := some (s, l), cvImg := flat, clicks := [] } := by
  unfold doneHandler
  rw [hs, hl]
  unfold flatten_img
  simp only [hc, hw]

/-- First-save shape of `save`: in a flattened state with a zero per-image
counter and a manifest not already containing the target path, `save` writes
`<stem>_flat<ext>`, appends one manifest entry with the current dims, bumps
the counter and reloads. -/
theorem save_first (st : FState)
    (hf : st.imgFlattened = true) (hn : st.numSaved = 0)
    (hfresh : hasKey st.saved (mkSavePath st ("_flat")) = false) :
    save st =
      (reload { st with saved := st.saved ++ [(mkSavePath st ("_flat"), st.dim)],
                        numSaved := 1 },
       some (mkSavePath st ("_flat"))) := by
  unfold save
  rw [hf]
  simp only [hn, lt_irrefl, if_false, if_true]
  rw [dictInsert_fresh st.saved _ st.dim hfresh]

/-- Four clicks on a freshly collecting state record exactly those four
points and set the flattened flag. -/
theorem clickSeq_four (st : FState)
    (h1 : st.imgFlattened = false) (h2 : st.clicks = []) (p1 p2 p3 p4 : ℚ × ℚ) :
    clickSeq st [p1, p2, p3, p4]
      = { st with clicks := [p1, p2, p3, p4], imgFlattened := true } := by
  simp [clickSeq, left_mouse_down, h1, h2]

/-- `_flatten_img` never touches the stored dimensions. -/
theorem flatten_img_dim (st st' : FState) (h : flatten_img st = some st') :
    st'.dim = st.dim := by
  unfold flatten_img at h
  split at h
  · split at h
    · injection h with h'
      rw [← h']
    · exact Option.noConfusion h
  · exact Option.noConfusion h

/-! ## Claim theorems -/

/-- Claim C2 (code bug): `_parse_input` was meant to demand that each hint be
a length-2 list of ints — its own error message says "lists should contain
lists of ints of len 2" — but it tests `len(images_input[key]) == 2`, the
length of the whole hint list, instead of `len(point)`.  Consequently an
object value consisting of three perfectly well-formed coordinate pairs is
rejected with `JsonFormatError`, while a value of two length-3 entries is
accepted. -/
theorem c2_parse_input_length_check_bug :
    parseInput (.obj [("a", .arr [.arr [.int 1, .int 2], .arr [.int 3, .int 4],
                                  .arr [.int 5, .int 6]])])
      = .error (.jsonFormatError ("lists should contain lists of ints of len 2"))
    ∧ parseInput (.obj [("a", .arr [.arr [.int 1, .int 2, .int 3],
                                    .arr [.int 4, .int 5, .int 6]])])
      = .ok [(.str ("a"), [.arr [.int 1, .int 2, .int 3], .arr [.int 4, .int 5, .int 6]])] :=
  ⟨rfl, rfl⟩

/-- Claim C5: calling `save` in any state in which `_img_flattened` is not set
(every externally reachable non-`Flattened` state — the dimension popup being
modal, `save` cannot run while `AwaitingDimensions` holds the flag) is a
silent no-op: no error, no file written, no manifest entry, the session state
returned completely unchanged. -/
theorem c5_save_outside_flattened_noop (st : FState)
    (h : st.imgFlattened = false) : save st = (st, none) := by
  simp [save, h]

/-- Witness for C5 at a pristine session state. -/
theorem c5_save_outside_flattened_noop_witness :
    save freshState = (freshState, none) :=
  c5_save_outside_flattened_noop freshState rfl

/-- Claim C7: `next_file` resets the per-image save counter to zero and
clears the flattened flag, while the sticky dimensions and the cumulative
save manifest are untouched. -/
theorem c7_next_file_resets_counters_keeps_dims_and_manifest (st : FState) :
    (next_file st).numSaved = 0 ∧ (next_file st).imgFlattened = false
    ∧ (next_file st).dim = st.dim ∧ (next_file st).saved = st.saved := by
  unfold next_file loadNextImgOrEnd reload
  cases hr : st.rest with
  | nil => simp
  | cons hd tl =>
      obtain ⟨stem, ext, img⟩ := hd
      simp

/-- Claim C9: if either text entry of the dimension popup fails to parse as a
float, the `done` handler returns early: the stored dimensions (and all other
session state) are exactly as they were, the popup is not destroyed, and no
flattening happens — in particular when the long side fails after the short
side parsed. -/
theorem c9_done_parse_failure_leaves_state_unchanged (st : FState) (ss ls : String)
    (h : pyFloat ss = none ∨ pyFloat ls = none) :
    doneHandler st ss ls = .retry st := by
  unfold doneHandler
  rcases h with h | h
  · rw [h]
  · cases hs : pyFloat ss with
    | none => rfl
    | some s => rw [h]

/-- Witness for C9: a short side that parses followed by a long side that does
not leaves the session untouched with the popup open. -/
theorem c9_done_parse_failure_leaves_state_unchanged_witness :
    doneHandler freshState ("1.5") ("abc") = .retry freshState :=
  c9_done_parse_failure_leaves_state_unchanged freshState ("1.5") ("abc") (Or.inr rfl)

/-- Claim C10: `Viewer.next_frame(n)` sets the index to `n mod len(files)`
(Python flooring modulo), so the index stays in range and navigation wraps
cyclically: "next" on the last file reaches the first, "back" on the first
reaches the last. -/
theorem c10_next_frame_wraps (st : ViewerState) (n : Int) (h : st.files ≠ []) :
    ((next_frame st n).index : Int) = n % (st.files.length : Int)
    ∧ (next_frame st n).index < st.files.length
    ∧ (st.index = st.files.length - 1 → (nextButton st).index = 0)
    ∧ (st.index = 0 → (backButton st).index = st.files.length - 1) := by
  have hlen : 0 < st.files.length := List.length_pos.mpr h
  have hm : (0 : Int) < (st.files.length : Int) := by exact_mod_cast hlen
  have hnn : 0 ≤ n % (st.files.length : Int) := Int.emod_nonneg n (ne_of_gt hm)
  have hlt : n % (st.files.length : Int) < (st.files.length : Int) :=
    Int.emod_lt_of_pos n hm
  refine ⟨?_, ?_, ?_, ?_⟩
  · exact Int.toNat_of_nonneg hnn
  · show (n % (st.files.length : Int)).toNat < st.files.length
    omega
  · intro hidx
    show ((((st.index : Int) + 1) % (st.files.length : Int)).toNat) = 0
    have hcast : (st.index : Int) + 1 = (st.files.length : Int) := by omega
    rw [hcast, Int.emod_self]
    rfl
  · intro hidx
    show ((((st.index : Int) - 1) % (st.files.length : Int)).toNat) = st.files.length - 1
    have hneg : (st.index : Int) - 1 = -1 := by omega
    rw [hneg]
    have hrW : (-1 : Int) % (st.files.length : Int)
        = ((st.files.length : Int) - 1) % (st.files.length : Int) := by
      conv_lhs => rw [show (-1 : Int)
        = ((st.files.length : Int) - 1) + (st.files.length : Int) * (-1) by ring]
      rw [Int.add_mul_emod_self_left]
    rw [hrW, Int.emod_eq_of_lt (by omega) (by omega)]
    omega

/-- Witness for C10 on a three-file list: jumping to raw index 5 lands on
index 2, "next" from the last file wraps to the first, "back" from the first
wraps to the last. -/
theorem c10_next_frame_wraps_witness :
    ((next_frame { files := ["a", "b", "c"], index := 2 } 5).index : Int)
        = 5 % ((3 : Nat) : Int)
    ∧ (next_frame { files := ["a", "b", "c"], index := 2 } 5).index < 3
    ∧ (nextButton { files := ["a", "b", "c"], index := 2 }).index = 0
    ∧ (backButton { files := ["a", "b", "c"], index := 0 }).index = 2 := by
  have h1 := c10_next_frame_wraps { files := ["a", "b", "c"], index := 2 } 5 (by decide)
  have h2 := c10_next_frame_wraps { files := ["a", "b", "c"], index := 0 } 5 (by decide)
  exact ⟨h1.1, h1.2.1, h1.2.2.1 rfl, h2.2.2.2 rfl⟩

/-- `qround` of a non-negative rational is non-negative. -/
theorem qround_nonneg (q : ℚ) (h : 0 ≤ q) : 0 ≤ qround q := by
  unfold qround
  rw [(Rat.floor_def' _).trans Rat.floor_def.symm]
  exact Int.floor_nonneg.mpr (by linarith)

/-- The two output paths of a first and a second save of the same source
image differ (their lengths already differ). -/
theorem mkSavePath_flat_ne (st : FState) :
    mkSavePath st ("_flat") ≠ mkSavePath st ("_flat_1") := by
  intro hcontra
  have hlen := congrArg String.length hcontra
  have h5 : (("_flat" : String)).length = 5 := rfl
  have h7 : (("_flat_1" : String)).length = 7 := rfl
  simp only [mkSavePath, String.length_append] at hlen
  rw [h5, h7] at hlen
  omega

/-- Later-save shape of `save`: with a positive per-image counter `n` the
output path carries the `_flat_<n>` suffix; a fresh path appends one manifest
entry, the counter is bumped and the session reloads. -/
theorem save_later (st : FState) (hf : st.imgFlattened = true) (hn : 0 < st.numSaved)
    (hfresh : hasKey st.saved (mkSavePath st (("_flat_") ++ Nat.repr st.numSaved)) = false) :
    save st =
      (reload { st with
          saved := st.saved ++ [(mkSavePath st (("_flat_") ++ Nat.repr st.numSaved), st.dim)],
          numSaved := st.numSaved + 1 },
       some (mkSavePath st (("_flat_") ++ Nat.repr st.numSaved))) := by
  unfold save
  rw [hf]
  simp only [hn, if_true, if_pos hn]
  rw [dictInsert_fresh _ _ _ hfresh]

/-- Second-save shape of `save`: with per-image counter 1 the output path
carries the `_flat_1` suffix. -/
theorem save_second (st : FState) (hf : st.imgFlattened = true) (hn : st.numSaved = 1)
    (hfresh : hasKey st.saved (mkSavePath st ("_flat_1")) = false) :
    save st =
      (reload { st with saved := st.saved ++ [(mkSavePath st ("_flat_1"), st.dim)],
                        numSaved := 2 },
       some (mkSavePath st ("_flat_1"))) := by
  have hone : ("_flat_") ++ Nat.repr 1 = ("_flat_1") := rfl
  unfold save
  rw [hf]
  simp only [hn, hone, Nat.lt_irrefl, zero_lt_one, if_true]
  rw [dictInsert_fresh _ _ _ hfresh]

/-- Claim C4: from `CollectingCorners` (no clicks yet, flag clear), a
sequence of exactly four `recordClick`s records those four points, promotes
the state (the flag that gates every later click is set) with the dimension
popup fired synchronously on the fourth click and on no earlier one; every
further click before dimension resolution is ignored wholesale, and under any
click sequence whatsoever the click list never exceeds 4 entries. -/
theorem c4_fourth_click_promotes_and_caps (st : FState) (p1 p2 p3 p4 : ℚ × ℚ)
    (ps : List (ℚ × ℚ))
    (h1 : st.imgFlattened = false) (h2 : st.clicks = []) :
    (clickSeq st [p1, p2, p3, p4]).imgFlattened = true
    ∧ (clickSeq st [p1, p2, p3, p4]).clicks = [p1, p2, p3, p4]
    ∧ (left_mouse_down st p1).2 = false
    ∧ (left_mouse_down (clickSeq st [p1, p2]) p3).2 = false
    ∧ (left_mouse_down (clickSeq st [p1, p2, p3]) p4).2 = true
    ∧ clickSeq (clickSeq st [p1, p2, p3, p4]) ps = clickSeq st [p1, p2, p3, p4]
    ∧ ∀ qs, (clickSeq st qs).clicks.length ≤ 4 := by
  have hfour := clickSeq_four st h1 h2 p1 p2 p3 p4
  refine ⟨?_, ?_, ?_, ?_, ?_, ?_, ?_⟩
  · rw [hfour]
  · rw [hfour]
  · simp [left_mouse_down, h1, h2]
  · simp [clickSeq, left_mouse_down, h1, h2]
  · simp [clickSeq, left_mouse_down, h1, h2]
  · rw [hfour]
    exact clickSeq_flattened ps _ rfl
  · intro qs
    apply clickSeq_clicks_le_four
    · intro _
      rw [h2]
      decide
    · rw [h2]
      decide

/-- Witness for C4: four concrete clicks on a pristine session promote the
state, fire the popup on the fourth click only, and a trailing fifth click
changes nothing. -/
theorem c4_fourth_click_promotes_and_caps_witness :
    (clickSeq freshState [(0, 0), (1, 0), (1, 1), (0, 1)]).imgFlattened = true
    ∧ (clickSeq freshState [(0, 0), (1, 0), (1, 1), (0, 1)]).clicks
        = [(0, 0), (1, 0), (1, 1), (0, 1)]
    ∧ (left_mouse_down freshState (0, 0)).2 = false
    ∧ (left_mouse_down (clickSeq freshState [(0, 0), (1, 0)]) (1, 1)).2 = false
    ∧ (left_mouse_down (clickSeq freshState [(0, 0), (1, 0), (1, 1)]) (0, 1)).2 = true
    ∧ clickSeq (clickSeq freshState [(0, 0), (1, 0), (1, 1), (0, 1)]) [(9, 9)]
        = clickSeq freshState [(0, 0), (1, 0), (1, 1), (0, 1)]
    ∧ (clickSeq freshState [(0, 0), (1, 0), (1, 1), (0, 1), (9, 9)]).clicks.length ≤ 4 := by
  have h := c4_fourth_click_promotes_and_caps freshState (0, 0) (1, 0) (1, 1) (0, 1)
    [(9, 9)] rfl rfl
  exact ⟨h.1, h.2.1, h.2.2.1, h.2.2.2.1, h.2.2.2.2.1, h.2.2.2.2.2.1,
    h.2.2.2.2.2.2 [(0, 0), (1, 0), (1, 1), (0, 1), (9, 9)]⟩

/-- Claim C6: with no dimensions ever supplied in the run (`dim is None`) the
"Use Last" reuse operation cannot be invoked at all — the button is never
created, which is how the code realizes the no-prior-dimensions failure; once
a pair has been stored, reuse succeeds, flattening with exactly the stored
`PanelDimensions` and leaving them unchanged. -/
theorem c6_reuse_last_dimensions :
    (∀ st : FState, st.dim = none → skipHandler st = .unavailable)
    ∧ (∀ (st : FState) (d : ℚ × ℚ) (q0 q1 q2 q3 : ℚ × ℚ) (flat : Img),
        st.dim = some d → st.clicks = [q0, q1, q2, q3] →
        four_points_correct_aspect st.cvImg q0 q1 q2 q3 d.1 d.2 = some flat →
        skipHandler st = .flattened { st with cvImg := flat, clicks := [] }
        ∧ ({ st with cvImg := flat, clicks := [] } : FState).dim = some d) := by
  constructor
  · intro st h
    unfold skipHandler
    rw [h]
  · intro st d q0 q1 q2 q3 flat hd hc hw
    constructor
    · unfold skipHandler
      rw [hd]
      unfold flatten_img
      rw [hc, hd]
      simp only [hw]
    · simpa using hd

/-- Witness for C6: on a pristine session reuse is unavailable; after dims
`(2, 3)` are stored and four corners are clicked, reuse flattens with exactly
`(2, 3)` and the stored pair survives. -/
theorem c6_reuse_last_dimensions_witness :
    skipHandler freshState = .unavailable
    ∧ skipHandler { freshState with dim := some (2, 3), clicks := [(0, 0), (1, 0), (1, 1), (0, 1)] }
        = .flattened { freshState with dim := some (2, 3), clicks := [], cvImg := { width := 2, height := 3, pix := [[1, 2], [1, 2], [3, 4]] } } := by
  constructor
  · exact c6_reuse_last_dimensions.1 freshState rfl
  · have h := (c6_reuse_last_dimensions.2
      { freshState with dim := some (2, 3), clicks := [(0, 0), (1, 0), (1, 1), (0, 1)] }
      (2, 3) (0, 0) (1, 0) (1, 1) (0, 1)
      { width := 2, height := 3, pix := [[1, 2], [1, 2], [3, 4]] }
      rfl rfl (by decide)).1
    exact h

/-- Claim C3 counterexample: in a session reachable by four corner clicks,
the dimension entries "0" and "10" are stored verbatim — `done()` has no
positivity check, so `dim = (0, 10)` with a non-positive short side ends up
recorded.  The handler does not recover locally either: having already stored
the pair and destroyed the popup, the flatten step's `InvalidDimensionsError`
(raised by the warp per spec §4.1) escapes the callback uncaught (`geomFail`),
which is a crash, not a re-prompt — and the non-positive pair stays stored. -/
theorem c3_counterexample :
    doneHandler (clickSeq freshState [(0, 0), (1, 0), (1, 1), (0, 1)]) "0" "10"
      = .geomFail { freshState with clicks := [(0, 0), (1, 0), (1, 1), (0, 1)], imgFlattened := true, dim := some (0, 10) }
    ∧ (doneHandler (clickSeq freshState [(0, 0), (1, 0), (1, 1), (0, 1)]) "0" "10").state.dim
        = some (0, 10)
    ∧ ¬ (0 < ((0 : ℚ)) ∧ 0 < ((10 : ℚ))) := by
  refine ⟨by decide, by decide, ?_⟩
  intro hcontra
  exact lt_irrefl 0 hcontra.1

/-- Claim C3 as amended: unparsable dimension input is recovered locally (the
handler returns with the session untouched and the dialog open — see the C9
theorem), but parsable input is stored verbatim with no positivity
validation, so the recorded pair is exactly the parsed floats whatever their
sign. -/
theorem c3_amended_dims_stored_verbatim (st : FState) (ss ls : String) (s l : ℚ)
    (hs : pyFloat ss = some s) (hl : pyFloat ls = some l) :
    (doneHandler st ss ls).state.dim = some (s, l) := by
  cases hf : flatten_img { st with dim := some (s, l) } with
  | none =>
      have hgeom : doneHandler st ss ls = .geomFail { st with dim := some (s, l) } := by
        unfold doneHandler
        rw [hs, hl]
        simp only [hf]
      rw [hgeom]
      rfl
  | some st2 =>
      have hok : doneHandler st ss ls = .ok st2 := by
        unfold doneHandler
        rw [hs, hl]
        simp only [hf]
      rw [hok]
      show st2.dim = some (s, l)
      rw [flatten_img_dim _ _ hf]

/-- Witness for the amended C3: the entries "-5" and "3" are stored as the
pair `(-5, 3)` even though `-5` is not a positive dimension. -/
theorem c3_amended_dims_stored_verbatim_witness :
    (doneHandler freshState ("-5") ("3")).state.dim = some (-5, 3) :=
  c3_amended_dims_stored_verbatim freshState ("-5") ("3") (-5) 3 rfl rfl

/-- Claim C8: whenever the warp succeeds (the four points yield an invertible
mapping — the model's rendering of non-collinearity) and the target
dimensions are positive, the produced image measures exactly `round w` by
`round h` pixels. -/
theorem c8_warp_output_size (img : Img) (p0 p1 p2 p3 : ℚ × ℚ) (w h : ℚ) (out : Img)
    (hw : 0 < w) (hh : 0 < h)
    (hout : four_points_correct_aspect img p0 p1 p2 p3 w h = some out) :
    (out.width : Int) = round w ∧ (out.height : Int) = round h := by
  simp only [four_points_correct_aspect] at hout
  split at hout
  · exact Option.noConfusion hout
  · split at hout
    · exact Option.noConfusion hout
    · injection hout with hout'
      rw [← hout']
      constructor
      · show ((qround w).toNat : Int) = round w
        rw [← qround_eq_round w]
        exact Int.toNat_of_nonneg (qround_nonneg w (le_of_lt hw))
      · show ((qround h).toNat : Int) = round h
        rw [← qround_eq_round h]
        exact Int.toNat_of_nonneg (qround_nonneg h (le_of_lt hh))

/-- Witness for C8: warping a 1×1 raster to target dims `(2, 3)` through the
four unit-square corners yields exactly a 2×3 raster. -/
theorem c8_warp_output_size_witness :
    ((({ width := 2, height := 3, pix := [[0, 0], [0, 0], [0, 0]] } : Img).width : Int)
        = round ((2 : ℚ)))
    ∧ ((({ width := 2, height := 3, pix := [[0, 0], [0, 0], [0, 0]] } : Img).height : Int)
        = round ((3 : ℚ))) :=
  c8_warp_output_size { width := 1, height := 1, pix := [[0]] } (0, 0) (1, 0) (1, 1) (0, 1)
    2 3 { width := 2, height := 3, pix := [[0, 0], [0, 0], [0, 0]] }
    (by norm_num) (by norm_num) (by decide)

/-- Claim C1: two saves of the same source image, each made in the flattened
state with no user-initiated reload between them (only `save`'s own implicit
reload, after which the panel is re-annotated: four clicks and a successful
dimension entry), write two distinct output paths — the first `<stem>_flat`,
the second disambiguated by the incrementing suffix `_flat_1` — and append
two entries to the save manifest. -/
theorem c1_save_twice_two_paths_two_entries
    (st stA stB : FState) (o1 : Option String) (r : DoneResult)
    (q0 q1 q2 q3 : ℚ × ℚ) (ss ls : String) (s l : ℚ) (flat : Img)
    (hf : st.imgFlattened = true) (hn : st.numSaved = 0)
    (hfresh1 : hasKey st.saved (mkSavePath st ("_flat")) = false)
    (hfresh2 : hasKey st.saved (mkSavePath st ("_flat_1")) = false)
    (hs : pyFloat ss = some s) (hl : pyFloat ls = some l)
    (hwarp : four_points_correct_aspect st.origImg q0 q1 q2 q3 s l = some flat)
    (hA : save st = (stA, o1))
    (hB : clickSeq stA [q0, q1, q2, q3] = stB)
    (hC : doneHandler stB ss ls = r) :
    o1 = some (mkSavePath st ("_flat"))
    ∧ r.isOk = true
    ∧ (save r.state).2 = some (mkSavePath st ("_flat_1"))
    ∧ mkSavePath st ("_flat") ≠ mkSavePath st ("_flat_1")
    ∧ (save r.state).1.saved
        = st.saved ++ [(mkSavePath st ("_flat"), st.dim), (mkSavePath st ("_flat_1"), some (s, l))]
    ∧ (save r.state).1.saved.length = st.saved.length + 2 := by
  have hsave1 := save_first st hf hn hfresh1
  have hA' := hA.symm.trans hsave1
  injection hA' with e1 e2
  subst e1
  subst e2
  rw [clickSeq_four _ rfl rfl q0 q1 q2 q3] at hB
  subst hB
  have hdone := doneHandler_ok
    { reload { st with saved := st.saved ++ [(mkSavePath st ("_flat"), st.dim)], numSaved := 1 } with clicks := [q0, q1, q2, q3], imgFlattened := true }
    ss ls s l q0 q1 q2 q3 flat hs hl rfl hwarp
  have hC' := hC.symm.trans hdone
  subst hC'
  have hfreshC : hasKey
      (st.saved ++ [(mkSavePath st ("_flat"), st.dim)]) (mkSavePath st ("_flat_1")) = false := by
    rw [hasKey_append_single, hfresh2]
    simp only [Bool.false_or]
    exact decide_eq_false (mkSavePath_flat_ne st)
  have hsave2 := save_second
    { { reload { st with saved := st.saved ++ [(mkSavePath st ("_flat"), st.dim)], numSaved := 1 } with clicks := [q0, q1, q2, q3], imgFlattened := true } with dim := some (s, l), cvImg := flat, clicks := [] }
    rfl rfl hfreshC
  refine ⟨rfl, rfl, ?_, mkSavePath_flat_ne st, ?_, ?_⟩
  · simp only [DoneResult.state]
    rw [hsave2]
    rfl
  · simp only [DoneResult.state]
    rw [hsave2]
    show (st.saved ++ [(mkSavePath st ("_flat"), st.dim)]) ++ [(mkSavePath st ("_flat_1"), some (s, l))]
      = st.saved ++ [(mkSavePath st ("_flat"), st.dim), (mkSavePath st ("_flat_1"), some (s, l))]
    simp
  · simp only [DoneResult.state]
    rw [hsave2]
    show ((st.saved ++ [(mkSavePath st ("_flat"), st.dim)])
        ++ [(mkSavePath st ("_flat_1"), some (s, l))]).length = st.saved.length + 2
    simp

/-- Witness for C1: starting flattened on `a.jpg` with an empty manifest, the
first save writes `out/a_flat.jpg`; after re-annotating (four clicks, dims
"2"/"3") the second save writes `out/a_flat_1.jpg`; the two paths differ and
the manifest holds exactly the two entries. -/
theorem c1_save_twice_two_paths_two_entries_witness :
    (save { freshState with imgFlattened := true }).2 = some (("out/a_flat.jpg" : String))
    ∧ (doneHandler (clickSeq (save { freshState with imgFlattened := true }).1
        [(0, 0), (1, 0), (1, 1), (0, 1)]) "2" "3").isOk = true
    ∧ (save (doneHandler (clickSeq (save { freshState with imgFlattened := true }).1
        [(0, 0), (1, 0), (1, 1), (0, 1)]) "2" "3").state).2 = some (("out/a_flat_1.jpg" : String))
    ∧ (("out/a_flat.jpg" : String)) ≠ (("out/a_flat_1.jpg" : String))
    ∧ (save (doneHandler (clickSeq (save { freshState with imgFlattened := true }).1
        [(0, 0), (1, 0), (1, 1), (0, 1)]) "2" "3").state).1.saved
        = [(("out/a_flat.jpg" : String), none), (("out/a_flat_1.jpg" : String), some (2, 3))]
    ∧ (save (doneHandler (clickSeq (save { freshState with imgFlattened := true }).1
        [(0, 0), (1, 0), (1, 1), (0, 1)]) "2" "3").state).1.saved.length = 2 := by
  have H := c1_save_twice_two_paths_two_entries
    { freshState with imgFlattened := true }
    (save { freshState with imgFlattened := true }).1
    (clickSeq (save { freshState with imgFlattened := true }).1
      [(0, 0), (1, 0), (1, 1), (0, 1)])
    (save { freshState with imgFlattened := true }).2
    (doneHandler (clickSeq (save { freshState with imgFlattened := true }).1
      [(0, 0), (1, 0), (1, 1), (0, 1)]) "2" "3")
    (0, 0) (1, 0) (1, 1) (0, 1) "2" "3" 2 3
    { width := 2, height := 3, pix := [[1, 2], [1, 2], [3, 4]] }
    rfl rfl rfl rfl (by decide) (by decide) (by decide) rfl rfl rfl
  exact ⟨H.1, H.2.1, H.2.2.1, H.2.2.2.1, H.2.2.2.2.1, H.2.2.2.2.2⟩

end Vision
